import Mathlib

/-!
Shallow embedding of the geometric core of the passport-photo application:
the unit converter, the sheet-layout engine (src/data/passportStandards.ts),
the compliance validator and auto-alignment solver
(src/hooks/useFaceDetection.ts), and the rendering convention of the photo
editor canvas (src/components/PhotoEditor.tsx).

JavaScript numbers are modelled as rationals; Math.round and Math.floor are
modelled as the corresponding integer-valued operations (Math.round x is
floor (x + 1/2), which matches the JavaScript half-up tie rule).
-/

namespace PassportPhoto

/-- JavaScript Math.floor on a rational. -/
def jsFloor (q : ℚ) : ℤ := ⌊q⌋

/-- JavaScript Math.round on a rational: floor (x + 1/2), ties away from
negative infinity, as in JavaScript. -/
def jsRound (q : ℚ) : ℤ := ⌊q + 1 / 2⌋

/-- The fields of a passport standard used by the geometric core
(src/data/passportStandards.ts, interface PassportStandard). -/
structure PassportStandard where
  id : String
  width : ℚ
  height : ℚ
  headHeightMin : ℚ
  headHeightMax : ℚ
  eyeLineFromBottom : ℚ
  backgroundColor : String
deriving DecidableEq

/-- The United States entry of the standards catalogue. -/
def usStandard : PassportStandard :=
  { id := "us", width := 51, height := 51, headHeightMin := 50,
    headHeightMax := 69, eyeLineFromBottom := 56, backgroundColor := "#FFFFFF" }

/-- A sheet-size catalogue entry (src/data/passportStandards.ts,
interface SheetSize). -/
structure SheetSize where
  id : String
  name : String
  width : ℚ
  height : ℚ
  dpi : ℚ
deriving DecidableEq

/-- The A4 entry of the sheet catalogue. -/
def sheetA4 : SheetSize :=
  { id := "a4", name := "A4", width := 210, height := 297, dpi := 300 }

/-- Return type of calculatePhotosPerSheet. -/
structure PhotosPerSheet where
  columns : ℤ
  rows : ℤ
  total : ℤ
deriving DecidableEq

/-- src/data/passportStandards.ts, calculatePhotosPerSheet: grid of photos
that fit on a sheet, given photo size, margin and gap in millimeters. -/
def calculatePhotosPerSheet (photoWidth photoHeight : ℚ) (sheet : SheetSize)
    (marginMm gapMm : ℚ) : PhotosPerSheet :=
  let usableWidth := sheet.width - 2 * marginMm
  let usableHeight := sheet.height - 2 * marginMm
  let columns := jsFloor ((usableWidth + gapMm) / (photoWidth + gapMm))
  let rows := jsFloor ((usableHeight + gapMm) / (photoHeight + gapMm))
  { columns := columns, rows := rows, total := columns * rows }

/-- src/data/passportStandards.ts, mmToPixels:
round (mm / 25.4 * dpi); 25.4 is the rational 127/5. -/
def mmToPixels (mm dpi : ℚ) : ℤ :=
  jsRound (mm / (127 / 5) * dpi)

/-- src/data/passportStandards.ts, pixelsToMm: pixels * 25.4 / dpi. -/
def pixelsToMm (pixels dpi : ℚ) : ℚ :=
  pixels * (127 / 5) / dpi

/-- A detected face bounding box in source-image pixel space
(src/hooks/useFaceDetection.ts, interface FaceBox). -/
structure FaceBox where
  xmin : ℚ
  ymin : ℚ
  xmax : ℚ
  ymax : ℚ
deriving DecidableEq

/-- src/hooks/useFaceDetection.ts, interface DetectedFace. -/
structure DetectedFace where
  box : FaceBox
  score : ℚ
deriving DecidableEq

/-- src/hooks/useFaceDetection.ts, interface FaceValidation. -/
structure FaceValidation where
  isValid : Bool
  headHeightValid : Bool
  eyeLineValid : Bool
  centeredValid : Bool
  headHeightPercent : ℚ
  eyeLinePercent : ℚ
  centerOffset : ℚ
  messages : List String
deriving DecidableEq

/-- Remediation message emitted when the head is too small. -/
def msgTooSmall : String := "Face is too small. Zoom in or move closer."

/-- Remediation message emitted when the head is too large. -/
def msgTooLarge : String := "Face is too large. Zoom out or move back."

/-- Remediation message emitted when the eye line is too low. -/
def msgTooLow : String := "Eyes are too low. Move the photo up."

/-- Remediation message emitted when the eye line is too high. -/
def msgTooHigh : String := "Eyes are too high. Move the photo down."

/-- Remediation message emitted when the face is off center. -/
def msgNotCentered : String := "Face is not centered. Adjust horizontally."

/-- Success message emitted when every check passes. -/
def msgSuccess : String := "Photo meets passport requirements!"

/-- src/hooks/useFaceDetection.ts, validateFace: compliance report for a
face box against a standard. -/
def validateFace (face : DetectedFace) (imageWidth imageHeight : ℚ)
    (standard : PassportStandard) : FaceValidation :=
  let box := face.box
  let faceHeight := box.ymax - box.ymin
  let faceCenterX := (box.xmin + box.xmax) / 2
  let headHeightPercent := faceHeight / imageHeight * 100
  let eyeY := box.ymin + faceHeight * (35 / 100)
  let eyeLinePercent := (imageHeight - eyeY) / imageHeight * 100
  let imageCenterX := imageWidth / 2
  let centerOffset := |faceCenterX - imageCenterX| / imageWidth * 100
  let headHeightValid : Bool :=
    decide (standard.headHeightMin * (8 / 10) ≤ headHeightPercent) &&
      decide (headHeightPercent ≤ standard.headHeightMax * (12 / 10))
  let eyeLineValid : Bool :=
    decide (|eyeLinePercent - standard.eyeLineFromBottom| ≤ 15)
  let centeredValid : Bool := decide (centerOffset ≤ 10)
  let headMsgs : List String :=
    if headHeightValid then []
    else [if headHeightPercent < standard.headHeightMin * (8 / 10) then
            msgTooSmall else msgTooLarge]
  let eyeMsgs : List String :=
    if eyeLineValid then []
    else [if eyeLinePercent < standard.eyeLineFromBottom then
            msgTooLow else msgTooHigh]
  let centerMsgs : List String :=
    if centeredValid then [] else [msgNotCentered]
  let collected := headMsgs ++ eyeMsgs ++ centerMsgs
  let messages := if collected.isEmpty then [msgSuccess] else collected
  { isValid := headHeightValid && eyeLineValid && centeredValid
    headHeightValid := headHeightValid
    eyeLineValid := eyeLineValid
    centeredValid := centeredValid
    headHeightPercent := headHeightPercent
    eyeLinePercent := eyeLinePercent
    centerOffset := centerOffset
    messages := messages }

/-- The position component of the auto-alignment result. -/
structure Position where
  x : ℚ
  y : ℚ
deriving DecidableEq

/-- Return type of calculateAutoPosition. -/
structure AutoPositionResult where
  scale : ℚ
  position : Position
deriving DecidableEq

/-- src/hooks/useFaceDetection.ts, calculateAutoPosition: scale and
translation meant to center and size the face for the standard. The final
position keeps the exact expression of the source, including the
self-cancelling base adjustment. -/
def calculateAutoPosition (face : DetectedFace)
    (imageWidth imageHeight canvasWidth canvasHeight : ℚ)
    (standard : PassportStandard) : AutoPositionResult :=
  let box := face.box
  let faceHeight := box.ymax - box.ymin
  let faceCenterX := (box.xmin + box.xmax) / 2
  let targetHeadPercent := (standard.headHeightMin + standard.headHeightMax) / 2 / 100
  let targetHeadHeight := canvasHeight * targetHeadPercent
  let scale := targetHeadHeight / faceHeight
  let scaledImageWidth := imageWidth * scale
  let scaledImageHeight := imageHeight * scale
  let scaledFaceCenterX := faceCenterX * scale
  let targetCenterX := canvasWidth / 2
  let offsetX := targetCenterX - scaledFaceCenterX
  let eyeY := box.ymin + faceHeight * (35 / 100)
  let scaledEyeY := eyeY * scale
  let targetEyeY := canvasHeight * (1 - standard.eyeLineFromBottom / 100)
  let offsetY := targetEyeY - scaledEyeY
  let baseX := (canvasWidth - scaledImageWidth) / 2
  let baseY := (canvasHeight - scaledImageHeight) / 2
  { scale := scale
    position :=
      { x := offsetX - baseX + (canvasWidth - scaledImageWidth) / 2
        y := offsetY - baseY + (canvasHeight - scaledImageHeight) / 2 } }

/-- src/components/PhotoEditor.tsx, drawCanvas: the x coordinate of the
image top-left corner on the editor canvas. -/
def drawnOriginX (canvasWidth imageWidth scale posX : ℚ) : ℚ :=
  (canvasWidth - imageWidth * scale) / 2 + posX

/-- src/components/PhotoEditor.tsx, drawCanvas: the y coordinate of the
image top-left corner on the editor canvas. -/
def drawnOriginY (canvasHeight imageHeight scale posY : ℚ) : ℚ :=
  (canvasHeight - imageHeight * scale) / 2 + posY

/-- Where a source-image point with x coordinate p lands on the canvas,
following the face-box overlay mapping of drawCanvas (boxX = x + xmin * scale). -/
def drawnPointX (canvasWidth imageWidth scale posX p : ℚ) : ℚ :=
  drawnOriginX canvasWidth imageWidth scale posX + p * scale

/-- Where a source-image point with y coordinate p lands on the canvas. -/
def drawnPointY (canvasHeight imageHeight scale posY p : ℚ) : ℚ :=
  drawnOriginY canvasHeight imageHeight scale posY + p * scale

/-- Distance between an integer rounding of a rational and the rational
itself is at most one half. -/
theorem jsRound_sub_abs_le (q : ℚ) : |(jsRound q : ℚ) - q| ≤ 1 / 2 := by
  have h1 : ((⌊q + 1 / 2⌋ : ℤ) : ℚ) ≤ q + 1 / 2 := Int.floor_le _
  have h2 : q + 1 / 2 - 1 < ((⌊q + 1 / 2⌋ : ℤ) : ℚ) := Int.sub_one_lt_floor _
  unfold jsRound
  rw [abs_le]
  constructor <;> linarith

/-- C9: on an A4 sheet (210 mm by 297 mm) a 35 mm by 45 mm photo with a
5 mm margin and a 2 mm gap tiles as 5 columns by 6 rows, 30 photos. -/
theorem calculatePhotosPerSheet_a4_instance :
    calculatePhotosPerSheet 35 45 sheetA4 5 2 = ⟨5, 6, 30⟩ := by
  norm_num [calculatePhotosPerSheet, sheetA4, jsFloor]

/-- C2 counterexample: with a 120 mm margin on A4 the usable width is
negative and calculatePhotosPerSheet returns columns = -1 and total = -1,
even though the usable width (-30 mm) is below the photo width 35 mm, so
the claimed clamp to zero does not happen. -/
theorem calculatePhotosPerSheet_negative_counts :
    (calculatePhotosPerSheet 35 45 sheetA4 120 2).columns = -1 ∧
    (calculatePhotosPerSheet 35 45 sheetA4 120 2).total = -1 ∧
    sheetA4.width - 2 * 120 < 35 := by
  norm_num [calculatePhotosPerSheet, sheetA4, jsFloor]

/-- C2 (amended): whenever the usable extents plus the gap are nonnegative
and photo size plus gap is positive, calculatePhotosPerSheet returns
nonnegative columns, rows and total, and a usable width below the photo
width yields zero columns and zero photos. -/
theorem calculatePhotosPerSheet_clamped (photoWidth photoHeight marginMm gapMm : ℚ)
    (sheet : SheetSize)
    (hw : 0 < photoWidth + gapMm) (hh : 0 < photoHeight + gapMm)
    (huw : 0 ≤ sheet.width - 2 * marginMm + gapMm)
    (huh : 0 ≤ sheet.height - 2 * marginMm + gapMm) :
    0 ≤ (calculatePhotosPerSheet photoWidth photoHeight sheet marginMm gapMm).columns ∧
    0 ≤ (calculatePhotosPerSheet photoWidth photoHeight sheet marginMm gapMm).rows ∧
    0 ≤ (calculatePhotosPerSheet photoWidth photoHeight sheet marginMm gapMm).total ∧
    (sheet.width - 2 * marginMm < photoWidth →
      (calculatePhotosPerSheet photoWidth photoHeight sheet marginMm gapMm).columns = 0 ∧
      (calculatePhotosPerSheet photoWidth photoHeight sheet marginMm gapMm).total = 0) := by
  simp only [calculatePhotosPerSheet, jsFloor]
  have hc : 0 ≤ ⌊(sheet.width - 2 * marginMm + gapMm) / (photoWidth + gapMm)⌋ :=
    Int.floor_nonneg.mpr (div_nonneg huw hw.le)
  have hr : 0 ≤ ⌊(sheet.height - 2 * marginMm + gapMm) / (photoHeight + gapMm)⌋ :=
    Int.floor_nonneg.mpr (div_nonneg huh hh.le)
  refine ⟨hc, hr, mul_nonneg hc hr, fun hlt => ?_⟩
  have h1 : (sheet.width - 2 * marginMm + gapMm) / (photoWidth + gapMm) < 1 :=
    (div_lt_one hw).mpr (by linarith)
  have h0 : ⌊(sheet.width - 2 * marginMm + gapMm) / (photoWidth + gapMm)⌋ = 0 :=
    Int.floor_eq_zero_iff.mpr (Set.mem_Ico.mpr ⟨div_nonneg huw hw.le, h1⟩)
  exact ⟨h0, by rw [h0, zero_mul]⟩

/-- Witness for the amended C2 theorem: margin 100 mm on A4 leaves a usable
width of 10 mm, below the 35 mm photo, so the grid is empty. -/
theorem calculatePhotosPerSheet_clamped_witness :
    0 ≤ (calculatePhotosPerSheet 35 45 sheetA4 100 2).columns ∧
    (calculatePhotosPerSheet 35 45 sheetA4 100 2).columns = 0 ∧
    (calculatePhotosPerSheet 35 45 sheetA4 100 2).total = 0 := by
  have h := calculatePhotosPerSheet_clamped 35 45 100 2 sheetA4 (by norm_num)
    (by norm_num) (by norm_num [sheetA4]) (by norm_num [sheetA4])
  exact ⟨h.1, (h.2.2.2 (by norm_num [sheetA4])).1, (h.2.2.2 (by norm_num [sheetA4])).2⟩

/-- C10: calculatePhotosPerSheet reads only the physical width and height of
the sheet, so two sheet entries agreeing on those produce the same grid,
whatever their dpi, id or name. -/
theorem calculatePhotosPerSheet_dpi_independent
    (photoWidth photoHeight marginMm gapMm : ℚ) (s t : SheetSize)
    (hw : s.width = t.width) (hh : s.height = t.height) :
    calculatePhotosPerSheet photoWidth photoHeight s marginMm gapMm =
      calculatePhotosPerSheet photoWidth photoHeight t marginMm gapMm := by
  simp only [calculatePhotosPerSheet, hw, hh]

/-- Witness for C10: the A4 entry and an A4 variant at 600 dpi give the
same grid. -/
theorem calculatePhotosPerSheet_dpi_independent_witness :
    calculatePhotosPerSheet 35 45 ⟨"a4", "A4", 210, 297, 300⟩ 5 2 =
      calculatePhotosPerSheet 35 45 ⟨"a4-600", "A4 at 600 dpi", 210, 297, 600⟩ 5 2 :=
  calculatePhotosPerSheet_dpi_independent 35 45 5 2 _ _ rfl rfl

/-- C4 counterexample: with dpi = -300 both converters return plain numeric
results instead of failing: one inch of millimeters maps to -300 pixels and
300 pixels map back to -25.4 mm. -/
theorem unitConversion_negative_dpi_counterexample :
    mmToPixels (127 / 5) (-300) = -300 ∧ pixelsToMm 300 (-300) = -(127 / 5) := by
  constructor
  · norm_num [mmToPixels, jsRound]
  · norm_num [pixelsToMm]

/-- C4 (amended): the converters perform no dpi validation; for a negative
dpi they return a nonpositive pixel count and a negative millimeter value
rather than an InvalidArgument failure. -/
theorem unitConversion_negative_dpi (mm px dpi : ℚ)
    (hmm : 0 < mm) (hpx : 0 < px) (hdpi : dpi < 0) :
    mmToPixels mm dpi ≤ 0 ∧ pixelsToMm px dpi < 0 := by
  constructor
  · have harg : mm / (127 / 5) * dpi < 0 :=
      mul_neg_of_pos_of_neg (div_pos hmm (by norm_num)) hdpi
    have hmono : (⌊mm / (127 / 5) * dpi + 1 / 2⌋ : ℤ) ≤ ⌊(1 / 2 : ℚ)⌋ :=
      Int.floor_le_floor (by linarith)
    have hhalf : (⌊(1 / 2 : ℚ)⌋ : ℤ) = 0 := by norm_num
    rw [hhalf] at hmono
    simpa [mmToPixels, jsRound] using hmono
  · exact div_neg_of_pos_of_neg (mul_pos hpx (by norm_num)) hdpi

/-- Witness for the amended C4 theorem at mm = 10, px = 10, dpi = -300. -/
theorem unitConversion_negative_dpi_witness :
    mmToPixels 10 (-300) ≤ 0 ∧ pixelsToMm 10 (-300) < 0 :=
  unitConversion_negative_dpi 10 10 (-300) (by norm_num) (by norm_num) (by norm_num)

/-- C5: the millimeter to pixel round trip moves a nonnegative length by at
most 25.4 / dpi millimeters, the forward direction rounding to the nearest
integer pixel and the reverse being exact. -/
theorem roundTrip_bound (mm dpi : ℚ) (hmm : 0 ≤ mm) (hdpi : 0 < dpi) :
    |pixelsToMm ((mmToPixels mm dpi : ℤ) : ℚ) dpi - mm| ≤ 127 / 5 / dpi := by
  have hkey := jsRound_sub_abs_le (mm / (127 / 5) * dpi)
  have hne : dpi ≠ 0 := ne_of_gt hdpi
  have hexp : pixelsToMm ((mmToPixels mm dpi : ℤ) : ℚ) dpi - mm =
      ((jsRound (mm / (127 / 5) * dpi) : ℚ) - mm / (127 / 5) * dpi) * (127 / 5) / dpi := by
    simp only [pixelsToMm, mmToPixels]
    field_simp
    ring
  rw [hexp, abs_div, abs_mul, abs_of_pos hdpi]
  have h127 : |(127 : ℚ) / 5| = 127 / 5 := by norm_num
  rw [h127]
  have hb : |(jsRound (mm / (127 / 5) * dpi) : ℚ) - mm / (127 / 5) * dpi| * (127 / 5) ≤
      1 / 2 * (127 / 5) :=
    mul_le_mul_of_nonneg_right hkey (by norm_num)
  calc |(jsRound (mm / (127 / 5) * dpi) : ℚ) - mm / (127 / 5) * dpi| * (127 / 5) / dpi ≤
      1 / 2 * (127 / 5) / dpi := by
        apply div_le_div_of_nonneg_right ?_ hdpi.le
        exact hb
    _ ≤ 127 / 5 / dpi := by
        apply div_le_div_of_nonneg_right ?_ hdpi.le
        norm_num

/-- Witness for C5 at mm = 10, dpi = 300. -/
theorem roundTrip_bound_witness :
    |pixelsToMm ((mmToPixels 10 300 : ℤ) : ℚ) 300 - 10| ≤ 127 / 5 / 300 :=
  roundTrip_bound 10 300 (by norm_num) (by norm_num)

/-- C3 counterexample: a face box with ymax below ymin (face height -50)
does not make calculateAutoPosition fail; it returns a result whose scale is
the negative number -4. -/
theorem calculateAutoPosition_degenerate_returns :
    (calculateAutoPosition ⟨⟨0, 100, 50, 50⟩, 1⟩ 100 150 400 400
      ⟨"t", 35, 45, 40, 60, 50, "#FFFFFF"⟩).scale = -4 := by
  norm_num [calculateAutoPosition]

/-- C3 (amended): calculateAutoPosition has no degenerate-geometry guard:
for a face box of negative height it still returns a result, whose scale is
negative whenever the canvas height and the head-height band are positive
(at face height exactly zero the JavaScript division yields Infinity, again
without an error). -/
theorem calculateAutoPosition_degenerate_scale_neg (face : DetectedFace)
    (imageWidth imageHeight canvasWidth canvasHeight : ℚ)
    (standard : PassportStandard)
    (hf : face.box.ymax - face.box.ymin < 0) (hc : 0 < canvasHeight)
    (hs : 0 < standard.headHeightMin + standard.headHeightMax) :
    (calculateAutoPosition face imageWidth imageHeight canvasWidth canvasHeight
      standard).scale < 0 := by
  simp only [calculateAutoPosition]
  exact div_neg_of_pos_of_neg
    (mul_pos hc (div_pos (div_pos hs two_pos) (by norm_num))) hf

/-- Witness for the amended C3 theorem at a face box of height -60. -/
theorem calculateAutoPosition_degenerate_scale_neg_witness :
    (calculateAutoPosition ⟨⟨0, 100, 50, 40⟩, 1⟩ 100 150 400 400 usStandard).scale < 0 :=
  calculateAutoPosition_degenerate_scale_neg ⟨⟨0, 100, 50, 40⟩, 1⟩ 100 150 400 400
    usStandard (by norm_num) (by norm_num) (by norm_num [usStandard])

/-- C8: the solver scale is canvasHeight times the midpoint of the
head-height band over the face height, positive for a positive face height,
and equals 2.38 at face height 100, canvas height 400 with the United
States band 50 to 69. -/
theorem calculateAutoPosition_scale_formula (face : DetectedFace)
    (imageWidth imageHeight canvasWidth canvasHeight : ℚ)
    (standard : PassportStandard)
    (hf : 0 < face.box.ymax - face.box.ymin) (hc : 0 < canvasHeight)
    (hs : 0 < standard.headHeightMin + standard.headHeightMax) :
    (calculateAutoPosition face imageWidth imageHeight canvasWidth canvasHeight
        standard).scale =
      canvasHeight * ((standard.headHeightMin + standard.headHeightMax) / 2 / 100) /
        (face.box.ymax - face.box.ymin) ∧
    0 < (calculateAutoPosition face imageWidth imageHeight canvasWidth canvasHeight
        standard).scale ∧
    (calculateAutoPosition ⟨⟨0, 0, 50, 100⟩, 1⟩ 200 200 400 400 usStandard).scale =
      238 / 100 := by
  refine ⟨rfl, ?_, by norm_num [calculateAutoPosition, usStandard]⟩
  simp only [calculateAutoPosition]
  exact div_pos (mul_pos hc (div_pos (div_pos hs two_pos) (by norm_num))) hf

/-- Witness for C8 at a concrete 100-pixel face on a 400-pixel canvas. -/
theorem calculateAutoPosition_scale_formula_witness :
    (calculateAutoPosition ⟨⟨0, 0, 50, 100⟩, 1⟩ 200 200 400 400 usStandard).scale =
      400 * ((usStandard.headHeightMin + usStandard.headHeightMax) / 2 / 100) /
        (100 - 0) ∧
    0 < (calculateAutoPosition ⟨⟨0, 0, 50, 100⟩, 1⟩ 200 200 400 400 usStandard).scale := by
  have h := calculateAutoPosition_scale_formula ⟨⟨0, 0, 50, 100⟩, 1⟩ 200 200 400 400
    usStandard (by norm_num) (by norm_num) (by norm_num [usStandard])
  exact ⟨h.1, h.2.1⟩

/-- C1: at a concrete input (face box (0, 0, 50, 100), image 100 by 150,
canvas 400 by 400, band 40 to 60, eye line 50) the image drawn with the
scale and position of calculateAutoPosition under the drawCanvas convention
puts the scaled face center at x = 300, not at canvasWidth / 2 = 200, and
the scaled eye line at y = 250, not at the target 200: the base-centering
adjustment cancels itself in the returned position. -/
theorem calculateAutoPosition_drawn_off_target :
    drawnPointX 400 100
        (calculateAutoPosition ⟨⟨0, 0, 50, 100⟩, 9 / 10⟩ 100 150 400 400
          ⟨"t", 35, 45, 40, 60, 50, "#FFFFFF"⟩).scale
        (calculateAutoPosition ⟨⟨0, 0, 50, 100⟩, 9 / 10⟩ 100 150 400 400
          ⟨"t", 35, 45, 40, 60, 50, "#FFFFFF"⟩).position.x ((0 + 50) / 2) = 300 ∧
    (300 : ℚ) ≠ 400 / 2 ∧
    drawnPointY 400 150
        (calculateAutoPosition ⟨⟨0, 0, 50, 100⟩, 9 / 10⟩ 100 150 400 400
          ⟨"t", 35, 45, 40, 60, 50, "#FFFFFF"⟩).scale
        (calculateAutoPosition ⟨⟨0, 0, 50, 100⟩, 9 / 10⟩ 100 150 400 400
          ⟨"t", 35, 45, 40, 60, 50, "#FFFFFF"⟩).position.y
        (0 + 100 * (35 / 100)) = 250 ∧
    (250 : ℚ) ≠ 400 * (1 - 50 / 100) := by
  refine ⟨?_, by norm_num, ?_, by norm_num⟩
  · norm_num [calculateAutoPosition, drawnPointX, drawnOriginX]
  · norm_num [calculateAutoPosition, drawnPointY, drawnOriginY]

/-- C6: headHeightValid holds exactly when the head-height percentage lies
in the widened inclusive band from headHeightMin * 0.8 to
headHeightMax * 1.2; for the United States standard a face filling 60
percent of the image height passes while one filling 30 percent fails and
draws the too-small message. -/
theorem validateFace_headHeight_band (face : DetectedFace)
    (imageWidth imageHeight : ℚ) (standard : PassportStandard)
    (hih : 0 < imageHeight) :
    ((validateFace face imageWidth imageHeight standard).headHeightValid = true ↔
      (standard.headHeightMin * (8 / 10) ≤
          (face.box.ymax - face.box.ymin) / imageHeight * 100 ∧
        (face.box.ymax - face.box.ymin) / imageHeight * 100 ≤
          standard.headHeightMax * (12 / 10))) ∧
    (validateFace ⟨⟨0, 0, 50, 60⟩, 1⟩ 100 100 usStandard).headHeightValid = true ∧
    (validateFace ⟨⟨0, 0, 50, 30⟩, 1⟩ 100 100 usStandard).headHeightValid = false ∧
    msgTooSmall ∈ (validateFace ⟨⟨0, 0, 50, 30⟩, 1⟩ 100 100 usStandard).messages := by
  refine ⟨?_, by norm_num [validateFace, usStandard],
    by norm_num [validateFace, usStandard], by norm_num [validateFace, usStandard]⟩
  simp [validateFace]

/-- Witness for C6: a face of height 80 on a 100-pixel-high image is inside
the widened United States band. -/
theorem validateFace_headHeight_band_witness :
    (validateFace ⟨⟨0, 0, 20, 80⟩, 1⟩ 100 100 usStandard).headHeightValid = true := by
  have h := validateFace_headHeight_band ⟨⟨0, 0, 20, 80⟩, 1⟩ 100 100 usStandard
    (by norm_num)
  exact h.1.mpr (by norm_num [usStandard])

/-- C7: the report of validateFace always carries at least one message;
isValid is the conjunction of the three checks; when every check passes the
message list is exactly the single success message, and otherwise it is the
concatenation of one directional message per failing check, head height
first, then eye line, then centering. -/
theorem validateFace_messages_structure (face : DetectedFace)
    (imageWidth imageHeight : ℚ) (standard : PassportStandard) :
    1 ≤ (validateFace face imageWidth imageHeight standard).messages.length ∧
    (validateFace face imageWidth imageHeight standard).isValid =
      ((validateFace face imageWidth imageHeight standard).headHeightValid &&
        (validateFace face imageWidth imageHeight standard).eyeLineValid &&
        (validateFace face imageWidth imageHeight standard).centeredValid) ∧
    (validateFace face imageWidth imageHeight standard).messages =
      (if (validateFace face imageWidth imageHeight standard).headHeightValid &&
          (validateFace face imageWidth imageHeight standard).eyeLineValid &&
          (validateFace face imageWidth imageHeight standard).centeredValid then
        [msgSuccess]
      else
        (if (validateFace face imageWidth imageHeight standard).headHeightValid then []
          else [if (validateFace face imageWidth imageHeight standard).headHeightPercent <
                  standard.headHeightMin * (8 / 10) then msgTooSmall else msgTooLarge]) ++
        (if (validateFace face imageWidth imageHeight standard).eyeLineValid then []
          else [if (validateFace face imageWidth imageHeight standard).eyeLinePercent <
                  standard.eyeLineFromBottom then msgTooLow else msgTooHigh]) ++
        (if (validateFace face imageWidth imageHeight standard).centeredValid then []
          else [msgNotCentered])) := by
  by_cases h1 : standard.headHeightMin * (8 / 10) ≤
      (face.box.ymax - face.box.ymin) / imageHeight * 100 <;>
    by_cases h2 : (face.box.ymax - face.box.ymin) / imageHeight * 100 ≤
      standard.headHeightMax * (12 / 10) <;>
    by_cases h3 : |(imageHeight - (face.box.ymin + (face.box.ymax - face.box.ymin) *
      (35 / 100))) / imageHeight * 100 - standard.eyeLineFromBottom| ≤ 15 <;>
    by_cases h4 : |(face.box.xmin + face.box.xmax) / 2 - imageWidth / 2| /
      imageWidth * 100 ≤ 10 <;>
    simp [validateFace, h1, h2, h3, h4]

end PassportPhoto
